import Mathlib

/-!
ThreeARContainer (src/three-ar-container.js)

A shallow embedding of the session container of mind-ar-js: the anchor registry
(`createAnchor`, `_updateAnchor`), the display geometry (`_recomputeSizes`) and the
session lifecycle (`start`, `stop`, `pause`).

Conventions of the embedding.

* JavaScript numbers are modelled by exact rationals (or, for the geometry, by an
  arbitrary linearly ordered field).  The rounding of double-precision operations is
  modelled where a claim depends on it: `recomputeSizesRounded` rounds the result of
  every operation of `_recomputeSizes`, and `roundDouble` is the rounding of IEEE 754
  binary64; `recomputeSizes` is the same computation without rounding.
* JavaScript arrays are reference values.  The only array this file mutates is the
  `elements` array of a `THREE.Matrix4`, so the session carries a store of such arrays
  addressed by natural numbers, and a matrix held by a scene object is the address of
  its `elements` array.
* `container.dispatchEvent` appends to the event log of the session; collaborator calls
  (tracker, capture device, DOM container) append to a call log.  Listeners do not call
  back into the session while an event is being dispatched.
* The ambient globals `THREE`, `AFRAME.THREE`, `document`, `navigator` and `window` exist.
* three.js itself is a library, not part of the repository; `Matrix4.compose` and
  `Matrix4.multiplyMatrices` are transcribed from it.
-/

namespace MindAR

/-! ## three.js values -/

/-- The sixteen entries of `Matrix4.elements`, in the column-major order three.js stores
them in: field `eN` is `elements[N]`. -/
structure Elements where
  e0 : ℚ
  e1 : ℚ
  e2 : ℚ
  e3 : ℚ
  e4 : ℚ
  e5 : ℚ
  e6 : ℚ
  e7 : ℚ
  e8 : ℚ
  e9 : ℚ
  e10 : ℚ
  e11 : ℚ
  e12 : ℚ
  e13 : ℚ
  e14 : ℚ
  e15 : ℚ
deriving DecidableEq, Repr

/-- The elements of `new THREE.Matrix4()`: the identity. -/
def Elements.identity : Elements :=
  { e0 := 1, e1 := 0, e2 := 0, e3 := 0,
    e4 := 0, e5 := 1, e6 := 0, e7 := 0,
    e8 := 0, e9 := 0, e10 := 1, e11 := 0,
    e12 := 0, e13 := 0, e14 := 0, e15 := 1 }

/-- A `THREE.Vector3`; `new Vector3()` is `(0, 0, 0)`. -/
structure Vector3 where
  x : ℚ := 0
  y : ℚ := 0
  z : ℚ := 0
deriving DecidableEq, Repr

/-- A `THREE.Quaternion`; `new Quaternion()` is the identity rotation `(0, 0, 0, 1)`. -/
structure Quaternion where
  x : ℚ := 0
  y : ℚ := 0
  z : ℚ := 0
  w : ℚ := 1
deriving DecidableEq, Repr

/-- The entries `Matrix4.compose(position, quaternion, scale)` writes (three.js). -/
def compose (position : Vector3) (quaternion : Quaternion) (scale : Vector3) : Elements :=
  let x := quaternion.x
  let y := quaternion.y
  let z := quaternion.z
  let w := quaternion.w
  let x2 := x + x
  let y2 := y + y
  let z2 := z + z
  let xx := x * x2
  let xy := x * y2
  let xz := x * z2
  let yy := y * y2
  let yz := y * z2
  let zz := z * z2
  let wx := w * x2
  let wy := w * y2
  let wz := w * z2
  let sx := scale.x
  let sy := scale.y
  let sz := scale.z
  { e0 := (1 - (yy + zz)) * sx
    e1 := (xy + wz) * sx
    e2 := (xz - wy) * sx
    e3 := 0
    e4 := (xy - wz) * sy
    e5 := (1 - (xx + zz)) * sy
    e6 := (yz + wx) * sy
    e7 := 0
    e8 := (xz + wy) * sz
    e9 := (yz - wx) * sz
    e10 := (1 - (xx + yy)) * sz
    e11 := 0
    e12 := position.x
    e13 := position.y
    e14 := position.z
    e15 := 1 }

/-- The entries `Matrix4.multiplyMatrices(a, b)` writes into `this.elements` (three.js):
all of `a` and `b` is read into locals first, then the sixteen entries are stored. -/
def multiplyMatrices (ae be : Elements) : Elements :=
  let a11 := ae.e0
  let a12 := ae.e4
  let a13 := ae.e8
  let a14 := ae.e12
  let a21 := ae.e1
  let a22 := ae.e5
  let a23 := ae.e9
  let a24 := ae.e13
  let a31 := ae.e2
  let a32 := ae.e6
  let a33 := ae.e10
  let a34 := ae.e14
  let a41 := ae.e3
  let a42 := ae.e7
  let a43 := ae.e11
  let a44 := ae.e15
  let b11 := be.e0
  let b12 := be.e4
  let b13 := be.e8
  let b14 := be.e12
  let b21 := be.e1
  let b22 := be.e5
  let b23 := be.e9
  let b24 := be.e13
  let b31 := be.e2
  let b32 := be.e6
  let b33 := be.e10
  let b34 := be.e14
  let b41 := be.e3
  let b42 := be.e7
  let b43 := be.e11
  let b44 := be.e15
  { e0 := a11 * b11 + a12 * b21 + a13 * b31 + a14 * b41
    e4 := a11 * b12 + a12 * b22 + a13 * b32 + a14 * b42
    e8 := a11 * b13 + a12 * b23 + a13 * b33 + a14 * b43
    e12 := a11 * b14 + a12 * b24 + a13 * b34 + a14 * b44
    e1 := a21 * b11 + a22 * b21 + a23 * b31 + a24 * b41
    e5 := a21 * b12 + a22 * b22 + a23 * b32 + a24 * b42
    e9 := a21 * b13 + a22 * b23 + a23 * b33 + a24 * b43
    e13 := a21 * b14 + a22 * b24 + a23 * b34 + a24 * b44
    e2 := a31 * b11 + a32 * b21 + a33 * b31 + a34 * b41
    e6 := a31 * b12 + a32 * b22 + a33 * b32 + a34 * b42
    e10 := a31 * b13 + a32 * b23 + a33 * b33 + a34 * b43
    e14 := a31 * b14 + a32 * b24 + a33 * b34 + a34 * b44
    e3 := a41 * b11 + a42 * b21 + a43 * b31 + a44 * b41
    e7 := a41 * b12 + a42 * b22 + a43 * b32 + a44 * b42
    e11 := a41 * b13 + a42 * b23 + a43 * b33 + a44 * b43
    e15 := a41 * b14 + a42 * b24 + a43 * b34 + a44 * b44 }

/-- The mathematical 4x4 matrix a column-major `elements` array denotes: row `i`,
column `j` is `elements[i + 4 * j]`. -/
def Elements.toMatrix (m : Elements) : Matrix (Fin 4) (Fin 4) ℚ :=
  Matrix.of ![![m.e0, m.e4, m.e8, m.e12],
              ![m.e1, m.e5, m.e9, m.e13],
              ![m.e2, m.e6, m.e10, m.e14],
              ![m.e3, m.e7, m.e11, m.e15]]

/-! ## Session state -/

/-- The coarse error codes carried by `arError`. -/
inductive ErrorCode where
  | VIDEO_FAIL
  | AR_FAIL
deriving DecidableEq, Repr

/-- The custom events dispatched on the container, with their `detail`. -/
inductive Event where
  | arError (error : ErrorCode)
  | arReady
  | targetFound (targetIndex : Nat)
  | targetLost (targetIndex : Nat)
deriving DecidableEq, Repr

/-- The exception a JavaScript property access or destructuring of `null` / `undefined`
raises. -/
inductive JsError where
  | typeError
deriving DecidableEq, Repr

/-- The fields of a `THREE.Group` this file reads or writes.  `id` is the object id
three.js gives every `Object3D`; `matrix` is the address, in the array store, of the
`elements` array of `anchor.matrix`. -/
structure Group where
  id : Nat
  visible : Bool := true
  matrixAutoUpdate : Bool := true
  matrix : Nat
deriving DecidableEq, Repr

/-- One entry `{targetIndex, postMatrix, anchor}` of `this.anchors`.  `postMatrix` is a
matrix built in `createAnchor`, held only by the entry and only read afterwards, so it
is kept by value. -/
structure AnchorEntry where
  targetIndex : Nat
  postMatrix : Elements
  anchor : Group
deriving DecidableEq, Repr

/-- The style properties `_recomputeSizes` assigns to a surface; `left`, `top`, `width`
and `height` are the numbers written before `"px"`. -/
structure Style (α : Type) where
  position : String
  left : α
  top : α
  width : α
  height : α

/-- The video element created by `_startVideo`: the identity of the element, its
intrinsic frame size, whether it is paused, and the tracks of `srcObject` (`true` while
a track is live; `none` while `srcObject` is unset). -/
structure Video where
  id : Nat
  videoWidth : ℚ
  videoHeight : ℚ
  paused : Bool := false
  srcObject : Option (List Bool) := none

/-- Modelled from the spec: the tracker handle (`Controller` of ./controller, a
collaborator whose code is not among the sources).  It records the options passed to
the constructor, the projection matrix `getProjectionMatrix()` returns (16 numbers,
read by index) and whether frames are being consumed (`processVideo` /
`stopProcessVideo`). -/
structure Controller where
  inputWidth : Option ℚ
  inputHeight : Option ℚ
  maxTrack : Nat
  getProjectionMatrix : Nat → ℚ
  processing : Bool := false

/-- The two surfaces `start` appends to the container. -/
inductive Surface where
  | video (id : Nat)
  | canvas
deriving DecidableEq, Repr

/-- Calls made on external collaborators, in the order they are made. -/
inductive Call where
  | getUserMedia
  | newController (inputWidth inputHeight : Option ℚ) (maxTrack : Nat)
  | addImageTargets
  | dummyRun
  | processVideo
  | stopProcessVideo
  | videoPause
  | videoPlay
  | trackStop
  | videoRemove
  | appendChild (child : Surface)
deriving DecidableEq, Repr

/-- Everything `_recomputeSizes` assigns: the four camera parameters, the renderer
size, and the layout of the canvas and of the video. -/
structure Sizes (α : Type) where
  fov : α
  aspect : α
  near : α
  far : α
  rendererWidth : α
  rendererHeight : α
  canvasStyle : Style α
  inputStyle : Style α

/-- The state of a `ThreeARContainer` together with the objects it owns.

* `arrays` / `nextArray`: the store of `Matrix4.elements` arrays and the next unused address;
* `sceneChildren`: ids of the objects added to `this.scene`; `nextId`: the next object id;
* `containerChildren`, `clientWidth`, `clientHeight`: the DOM container;
  `nextElement`: the identity the next created video element gets;
* `sizes`: what `_recomputeSizes` last assigned to camera, renderer and surfaces;
* `events`: events dispatched on the container; `calls`: collaborator calls. -/
structure Session where
  arrays : Nat → Elements
  nextArray : Nat
  sceneChildren : List Nat
  nextId : Nat
  dimensions : Option (List (ℚ × ℚ))
  anchors : List AnchorEntry
  input : Option Video
  inputWidth : Option ℚ
  inputHeight : Option ℚ
  controller : Option Controller
  containerChildren : List Surface
  nextElement : Nat
  clientWidth : ℚ
  clientHeight : ℚ
  sizes : Option (Sizes ℚ)
  events : List Event
  calls : List Call

/-- The session the constructor builds for a container of the given client size:
`dimensions = null`, `anchors = []`, `input` and `controller` not yet assigned. -/
def Session.new (clientWidth clientHeight : ℚ) : Session :=
  { arrays := fun _ => Elements.identity
    nextArray := 0
    sceneChildren := []
    nextId := 0
    dimensions := none
    anchors := []
    input := none
    inputWidth := none
    inputHeight := none
    controller := none
    containerChildren := []
    nextElement := 0
    clientWidth := clientWidth
    clientHeight := clientHeight
    sizes := none
    events := []
    calls := [] }

/-- The effect of `this.container.dispatchEvent(new CustomEvent(...))`. -/
def Session.dispatchEvent (s : Session) (ev : Event) : Session :=
  { s with events := s.events ++ [ev] }

/-! ## Anchor registry -/

/-- The matrix `createAnchor` composes for a target of size `markerWidth` by
`markerHeight` (lines 82-91). -/
def postMatrixOf (markerWidth markerHeight : ℚ) : Elements :=
  let position : Vector3 :=
    { x := markerWidth / 2, y := markerWidth / 2 + (markerHeight - markerWidth) / 2 }
  let quaternion : Quaternion := {}
  let scale : Vector3 := { x := markerWidth, y := markerWidth, z := markerWidth }
  compose position quaternion scale

/-- Model of `createAnchor(targetIndex)`.  Line 81 destructures `this.dimensions[targetIndex]`:
reading an index of `null`, or destructuring `undefined`, raises a `TypeError` before
anything is written.  Otherwise a new invisible group is added to the scene and an entry
is pushed on `this.anchors`.  Returns the final state and the outcome. -/
def createAnchor (s : Session) (targetIndex : Nat) : Session × Except JsError Group :=
  match s.dimensions with
  | none => (s, .error .typeError)
  | some dimensions =>
    match dimensions[targetIndex]? with
    | none => (s, .error .typeError)
    | some (markerWidth, markerHeight) =>
      let postMatrix := postMatrixOf markerWidth markerHeight
      let anchor : Group :=
        { id := s.nextId, visible := false, matrixAutoUpdate := false, matrix := s.nextArray }
      ({ s with
          arrays := Function.update s.arrays s.nextArray Elements.identity
          nextArray := s.nextArray + 1
          nextId := s.nextId + 1
          sceneChildren := s.sceneChildren ++ [anchor.id]
          anchors := s.anchors ++ [{ targetIndex := targetIndex, postMatrix := postMatrix,
                                     anchor := anchor }] },
       .ok anchor)

/-- The body of the `forEach` callback of `_updateAnchor` (lines 199-217), run over the
anchor list from left to right; the array store and the event log are threaded through.
`worldMatrix` is the address of the array received from the tracker, or `none` when it
is `null`.  With a matrix present, `m.elements = worldMatrix` makes the new matrix share
that array, `m.multiply(postMatrix)` overwrites the array with the product, and
`anchor.matrix = m` points the anchor at it. -/
def updateAnchorLoop (targetIndex : Nat) (worldMatrix : Option Nat) :
    List AnchorEntry → (Nat → Elements) → List Event →
      List AnchorEntry × (Nat → Elements) × List Event
  | [], arrays, events => ([], arrays, events)
  | entry :: rest, arrays, events =>
    if targetIndex = entry.targetIndex then
      match worldMatrix with
      | some m =>
        let arrays1 := Function.update arrays m (multiplyMatrices (arrays m) entry.postMatrix)
        let events1 :=
          if !entry.anchor.visible then events ++ [Event.targetFound targetIndex] else events
        let entry1 := { entry with anchor := { entry.anchor with matrix := m, visible := true } }
        let out := updateAnchorLoop targetIndex worldMatrix rest arrays1 events1
        (entry1 :: out.1, out.2)
      | none =>
        let events1 :=
          if entry.anchor.visible then events ++ [Event.targetLost targetIndex] else events
        let entry1 := { entry with anchor := { entry.anchor with visible := false } }
        let out := updateAnchorLoop targetIndex worldMatrix rest arrays events1
        (entry1 :: out.1, out.2)
    else
      let out := updateAnchorLoop targetIndex worldMatrix rest arrays events
      (entry :: out.1, out.2)

/-- Model of `_updateAnchor({targetIndex, worldMatrix})`. -/
def updateAnchor (s : Session) (targetIndex : Nat) (worldMatrix : Option Nat) : Session :=
  let out := updateAnchorLoop targetIndex worldMatrix s.anchors s.arrays s.events
  { s with anchors := out.1, arrays := out.2.1, events := out.2.2 }

/-- A run of `_updateAnchor` over a sequence of pose updates for one target index. -/
def updateAnchorSeq (s : Session) (targetIndex : Nat) : List (Option Nat) → Session
  | [] => s
  | worldMatrix :: rest =>
    updateAnchorSeq (updateAnchor s targetIndex worldMatrix) targetIndex rest

/-- The display transform of an anchor: the contents of the array `anchor.matrix` holds. -/
def Session.displayTransform (s : Session) (anchor : Group) : Elements :=
  s.arrays anchor.matrix

/-! ## Display geometry -/

/-- Model of the arithmetic of `_recomputeSizes` (lines 150-195) in exact arithmetic,
over a linearly ordered field: every operation is read without the rounding a double
would apply (`recomputeSizesRounded` below is the reading with rounding, and equals this
one when the rounding is the identity).  `atan` and `pi` stand for `Math.atan` and
`Math.PI`, `proj` for the array
`controller.getProjectionMatrix()` returns, and the container size for
`container.clientWidth` / `clientHeight`.  The result lists every value the function
assigns.  (`ratio`, line 154, is computed and never used; `outputEncoding` and the pixel
ratio do not depend on the inputs.)  Division by zero, which JavaScript answers with
an infinity or NaN, is outside the range where this model is meaningful. -/
def recomputeSizes {α : Type} [LinearOrderedField α] (atan : α → α) (pi : α) (proj : Nat → α)
    (inputWidth inputHeight containerWidth containerHeight : α) : Sizes α :=
  let fov := 2 * atan (1 / proj 5) * 180 / pi
  let near := proj 14 / (proj 10 - 1)
  let far := proj 14 / (proj 10 + 1)
  let newAspect := inputWidth / inputHeight
  let inputRatio := inputWidth / inputHeight
  let containerRatio := containerWidth / containerHeight
  let display : α × α :=
    if inputRatio > containerRatio then
      let displayHeight := containerHeight
      (displayHeight * inputRatio, displayHeight)
    else
      let displayWidth := containerWidth
      (displayWidth, displayWidth / inputRatio)
  let displayWidth := display.1
  let displayHeight := display.2
  let displayTopCss := -(displayHeight - containerHeight) / 2
  let displayLeftCss := -(displayWidth - containerWidth) / 2
  let displayWidthCss := displayWidth
  let displayHeightCss := displayHeight
  { fov := fov
    aspect := newAspect
    near := near
    far := far
    rendererWidth := inputWidth
    rendererHeight := inputHeight
    canvasStyle := { position := "absolute", left := displayLeftCss, top := displayTopCss,
                     width := displayWidthCss, height := displayHeightCss }
    inputStyle := { position := "absolute", left := displayLeftCss, top := displayTopCss,
                    width := displayWidthCss, height := displayHeightCss } }

/-- Rounding of a rational to the nearest integer, a tie going to the even one. -/
def roundHalfEven (q : ℚ) : ℤ :=
  let f := ⌊q⌋
  let r := q - f
  if r < 1 / 2 then f else if 1 / 2 < r then f + 1 else if f % 2 = 0 then f else f + 1

/-- The rounding IEEE 754 binary64 applies to the exact result of an operation
(round to nearest, ties to even, 53 significant bits): for `2 ^ e ≤ |x| < 2 ^ (e + 1)`
the result is the nearest multiple of `2 ^ (e - 52)`.  Overflow to an infinity and the
subnormal range are not modelled. -/
def roundDouble (x : ℚ) : ℚ :=
  if x = 0 then 0
  else
    let e := Int.log 2 |x|
    (roundHalfEven (x / 2 ^ (e - 52)) : ℚ) * 2 ^ (e - 52)

/-- Model of the arithmetic of `_recomputeSizes` (lines 150-195) with the rounding of
each operation explicit: `fl` is applied to the exact result of every division,
multiplication, addition and subtraction, in the order JavaScript evaluates them
(negation is exact in binary64 and is not rounded).  With `fl := roundDouble` this is the
computation in doubles; with `fl := id` it is `recomputeSizes`. -/
def recomputeSizesRounded {α : Type} [LinearOrderedField α] (fl : α → α) (atan : α → α)
    (pi : α) (proj : Nat → α)
    (inputWidth inputHeight containerWidth containerHeight : α) : Sizes α :=
  let fov := fl (fl (fl (2 * atan (fl (1 / proj 5))) * 180) / pi)
  let near := fl (proj 14 / fl (proj 10 - 1))
  let far := fl (proj 14 / fl (proj 10 + 1))
  let newAspect := fl (inputWidth / inputHeight)
  let inputRatio := fl (inputWidth / inputHeight)
  let containerRatio := fl (containerWidth / containerHeight)
  let display : α × α :=
    if inputRatio > containerRatio then
      let displayHeight := containerHeight
      (fl (displayHeight * inputRatio), displayHeight)
    else
      let displayWidth := containerWidth
      (displayWidth, fl (displayWidth / inputRatio))
  let displayWidth := display.1
  let displayHeight := display.2
  let displayTopCss := fl (-(fl (displayHeight - containerHeight)) / 2)
  let displayLeftCss := fl (-(fl (displayWidth - containerWidth)) / 2)
  let displayWidthCss := displayWidth
  let displayHeightCss := displayHeight
  { fov := fov
    aspect := newAspect
    near := near
    far := far
    rendererWidth := inputWidth
    rendererHeight := inputHeight
    canvasStyle := { position := "absolute", left := displayLeftCss, top := displayTopCss,
                     width := displayWidthCss, height := displayHeightCss }
    inputStyle := { position := "absolute", left := displayLeftCss, top := displayTopCss,
                    width := displayWidthCss, height := displayHeightCss } }

/-! ## Session lifecycle -/

/-- The state a promise ends in. -/
inductive Settled (α : Type) where
  | resolved (value : α)
  | rejected
  | pending

/-- What the body of an executor `async (resolve, reject) => ...` does: call `resolve`,
call `reject`, raise an exception, or return without calling either. -/
inductive Executor (α : Type) where
  | resolve (value : α)
  | reject
  | raise
  | idle

/-- Semantics of `new Promise(async (resolve, reject) => ...)`.  An exception raised in
an `async` executor rejects the promise of the executor function itself, which nobody
holds; the constructed promise is settled only by a call of `resolve` or `reject`. -/
def newPromiseAsync {α : Type} : Executor α → Settled α
  | .resolve value => .resolved value
  | .reject => .rejected
  | .raise => .pending
  | .idle => .pending

/-- The behaviour of the platform and of the tracker during one `start()`.

* `atan`, `pi`: `Math.atan`, `Math.PI`;
* `hasGetUserMedia`: `navigator.mediaDevices && navigator.mediaDevices.getUserMedia`;
* `getUserMedia`: how the request settles, with the live flags of the stream tracks;
* `loadedmetadata`: the frame size reported when the `loadedmetadata` event fires
  (`none`: it never fires);
* `controllerThrows`: whether `new Controller(...)` raises;
* `getProjectionMatrix`: the projection matrix of the tracker;
* `addImageTargets`, `dummyRun`: how those promises settle. -/
structure World where
  atan : ℚ → ℚ
  pi : ℚ
  hasGetUserMedia : Bool
  getUserMedia : Settled (List Bool)
  loadedmetadata : Option (ℚ × ℚ)
  controllerThrows : Bool
  getProjectionMatrix : Nat → ℚ
  addImageTargets : Settled (List (ℚ × ℚ))
  dummyRun : Settled Unit

/-- Records a collaborator call. -/
def Session.call (s : Session) (c : Call) : Session :=
  { s with calls := s.calls ++ [c] }

/-- The value `_startVideo` resolves with. -/
structure VideoResult where
  input : Video
  inputWidth : ℚ
  inputHeight : ℚ

/-- Model of `_startVideo()` (lines 105-131): the state after its body and the way the
promise it returns settles. -/
def startVideo (s : Session) (w : World) : Session × Settled VideoResult :=
  let video : Video := { id := s.nextElement, videoWidth := 0, videoHeight := 0 }
  let s0 := { s with nextElement := s.nextElement + 1 }
  if !w.hasGetUserMedia then
    (s0, newPromiseAsync .reject)
  else
    let s1 := s0.call .getUserMedia
    match w.getUserMedia with
    | .resolved stream =>
      match w.loadedmetadata with
      | some (videoWidth, videoHeight) =>
        let video1 := { video with srcObject := some stream, videoWidth := videoWidth,
                                   videoHeight := videoHeight }
        (s1, newPromiseAsync (.resolve { input := video1, inputWidth := video1.videoWidth,
                                         inputHeight := video1.videoHeight }))
      | none => (s1, newPromiseAsync .idle)
    | .rejected => (s1, newPromiseAsync .reject)
    | .pending => (s1, newPromiseAsync .idle)

/-- Model of `_startAR()` (lines 133-145).  The executor is `async`, never calls
`reject`, and awaits `controller.addImageTargets`: when the constructor raises or that
promise rejects, the exception is raised inside the executor. -/
def startAR (s : Session) (w : World) : Session × Settled (Controller × List (ℚ × ℚ)) :=
  let s1 := s.call (.newController s.inputWidth s.inputHeight 1)
  if w.controllerThrows then
    (s1, newPromiseAsync .raise)
  else
    let controller : Controller :=
      { inputWidth := s.inputWidth, inputHeight := s.inputHeight, maxTrack := 1,
        getProjectionMatrix := w.getProjectionMatrix }
    let s2 := s1.call .addImageTargets
    match w.addImageTargets with
    | .resolved dimensions => (s2, newPromiseAsync (.resolve (controller, dimensions)))
    | .rejected => (s2, newPromiseAsync .raise)
    | .pending => (s2, newPromiseAsync .idle)

/-- The state at the moment `start()` returns to its caller: `_start` has run up to its
first `await`, that is, through the body of `_startVideo`. -/
def startSync (s : Session) (w : World) : Session :=
  (startVideo s w).1

/-- Model of `start()` (lines 22-56): the state once `_start` has run as far as it ever
will.  An `await` of a promise that stays pending never resumes. -/
def start (s : Session) (w : World) : Session :=
  match startVideo s w with
  | (s0, .pending) => s0
  | (s0, .rejected) => s0.dispatchEvent (.arError .VIDEO_FAIL)
  | (s0, .resolved r) =>
    let s1 := { s0 with input := some r.input, inputWidth := some r.inputWidth,
                        inputHeight := some r.inputHeight }
    match startAR s1 w with
    | (s2, .pending) => s2
    | (s2, .rejected) => s2.dispatchEvent (.arError .AR_FAIL)
    | (s2, .resolved (controller, dimensions)) =>
      let s3 := { s2 with controller := some controller, dimensions := some dimensions }
      let s4 := s3.call .dummyRun
      match w.dummyRun with
      | .pending => s4
      | .rejected => s4.dispatchEvent (.arError .AR_FAIL)
      | .resolved _ =>
        let s5 := (s4.call (.appendChild (.video r.input.id))).call (.appendChild .canvas)
        let s6 := { s5 with
          containerChildren := s5.containerChildren ++ [Surface.video r.input.id, Surface.canvas] }
        let s7 := { s6 with
          sizes := some (recomputeSizes w.atan w.pi controller.getProjectionMatrix
            r.inputWidth r.inputHeight s6.clientWidth s6.clientHeight) }
        let s8 := s7.dispatchEvent .arReady
        { s8.call .processVideo with controller := some { controller with processing := true } }

/-- Model of `pause(keepVideo = false)` (lines 67-73).  `video.pause` on an unset
`this.input`, and `this.controller.stopProcessVideo` on an unset `this.controller`,
raise a `TypeError`; the state reached by then is returned with it. -/
def pause (s : Session) (keepVideo : Bool := false) : Session × Except JsError Unit :=
  let afterVideo : Session × Except JsError Unit :=
    if !keepVideo then
      match s.input with
      | none => (s, .error .typeError)
      | some video => ({ s.call .videoPause with input := some { video with paused := true } },
                       .ok ())
    else (s, .ok ())
  match afterVideo with
  | (s1, .error e) => (s1, .error e)
  | (s1, .ok _) =>
    match s1.controller with
    | none => (s1, .error .typeError)
    | some controller =>
      ({ s1.call .stopProcessVideo with
          controller := some { controller with processing := false } }, .ok ())

/-- Model of `stop()` (lines 58-66): `pause()`, then every track of `video.srcObject` is
stopped and the video element is removed from its parent. -/
def stop (s : Session) : Session × Except JsError Unit :=
  match pause s with
  | (s1, .error e) => (s1, .error e)
  | (s1, .ok _) =>
    match s1.input with
    | none => (s1, .error .typeError)
    | some video =>
      match video.srcObject with
      | none => (s1, .error .typeError)
      | some tracks =>
        ({ s1 with
            input := some { video with srcObject := some (tracks.map fun _ => false) }
            containerChildren := s1.containerChildren.filter (fun c => c != Surface.video video.id)
            calls := s1.calls ++ tracks.map (fun _ => Call.trackStop) ++ [Call.videoRemove] },
         .ok ())

/-- Model of `unpause()` (lines 74-78). -/
def unpause (s : Session) : Session × Except JsError Unit :=
  match s.input with
  | none => (s, .error .typeError)
  | some video =>
    let s1 := { s.call .videoPlay with input := some { video with paused := false } }
    match s1.controller with
    | none => (s1, .error .typeError)
    | some controller =>
      ({ s1.call .processVideo with controller := some { controller with processing := true } },
       .ok ())

/-! ## Reference definitions and fixtures -/

/-- Follows the words of the specification (sections 4.3 and 6), not the code: the events
one anchor for target index `t` gives rise to over a sequence of pose updates.  The
first argument is whether the anchor is visible, and `true` in the list stands for an
update that carries a world matrix: `targetFound` on an invisible to visible edge,
`targetLost` on a visible to invisible edge, nothing otherwise. -/
def specEdgeEvents (t : Nat) : Bool → List Bool → List Event
  | _, [] => []
  | visible, present :: rest =>
    (if present && !visible then [Event.targetFound t]
     else if !present && visible then [Event.targetLost t]
     else []) ++ specEdgeEvents t present rest

/-- A session after tracker start-up with one target of size 2 by 2 and one anchor for it. -/
def singleAnchorSession : Session :=
  (createAnchor { Session.new 1600 900 with dimensions := some [(2, 2)] } 0).1

/-- A world matrix: the translation by `(5, 0, 0)`. -/
def worldFixture : Elements :=
  { Elements.identity with e12 := 5 }

/-- A session with one target of size 2 by 2 and two anchors created for it, in which
the tracker has stored `worldFixture` in a new array (address 2) that it is about to pass
to `_updateAnchor`. -/
def sharedTargetSession : Session :=
  let s2 := (createAnchor singleAnchorSession 0).1
  { s2 with
      arrays := Function.update s2.arrays s2.nextArray worldFixture
      nextArray := s2.nextArray + 1 }

/-- The projection matrix entries of the fixture of section 8: `m[5] = 1.0`,
`m[10] = -1.0022`, `m[14] = -0.2002`; the entries the code does not read are 0. -/
def fixtureProjection {α : Type} [Field α] (i : Nat) : α :=
  if i = 5 then 1
  else if i = 10 then -(10022 / 10000)
  else if i = 14 then -(2002 / 10000)
  else 0

/-- A platform on which start-up succeeds: a camera stream of 640 by 480 with one track,
a tracker with the fixture projection and one target of size 1 by 1.  `atan` and `pi` are
rational stand-ins for `Math.atan` and `Math.PI`. -/
def nominalWorld : World :=
  { atan := fun _ => 355 / 452
    pi := 355 / 113
    hasGetUserMedia := true
    getUserMedia := .resolved [true]
    loadedmetadata := some (640, 480)
    controllerThrows := false
    getProjectionMatrix := fixtureProjection
    addImageTargets := .resolved [(1, 1)]
    dummyRun := .resolved () }

/-! ## Matrices -/

/-- `multiplyMatrices` computes the matrix product of the matrices its arguments denote,
left argument on the left. -/
theorem multiplyMatrices_toMatrix (a b : Elements) :
    (multiplyMatrices a b).toMatrix = a.toMatrix * b.toMatrix := by
  ext i j
  fin_cases i <;> fin_cases j <;>
    simp [multiplyMatrices, Elements.toMatrix, Matrix.mul_apply, Fin.sum_univ_four]

/-- The sixteen entries of the post-transform of a target of size `w` by `h`. -/
theorem postMatrixOf_eq (w h : ℚ) :
    postMatrixOf w h =
      { e0 := w, e1 := 0, e2 := 0, e3 := 0,
        e4 := 0, e5 := w, e6 := 0, e7 := 0,
        e8 := 0, e9 := 0, e10 := w, e11 := 0,
        e12 := w / 2, e13 := h / 2, e14 := 0, e15 := 1 } := by
  simp only [postMatrixOf, compose]
  congr 1 <;> ring

/-! ## createAnchor -/

/-- With `this.dimensions` still `null`, `createAnchor` raises and writes nothing. -/
theorem createAnchor_null (s : Session) (t : Nat) (hd : s.dimensions = none) :
    createAnchor s t = (s, .error .typeError) := by
  simp only [createAnchor, hd]

/-- With no entry at the index, `createAnchor` raises and writes nothing. -/
theorem createAnchor_missing (s : Session) (t : Nat) (dims : List (ℚ × ℚ))
    (hd : s.dimensions = some dims) (ht : dims[t]? = none) :
    createAnchor s t = (s, .error .typeError) := by
  simp only [createAnchor, hd, ht]

/-- With the dimensions of the target known, `createAnchor` succeeds; its result in full. -/
theorem createAnchor_known (s : Session) (t : Nat) (dims : List (ℚ × ℚ)) (w h : ℚ)
    (hd : s.dimensions = some dims) (ht : dims[t]? = some (w, h)) :
    createAnchor s t =
      ({ s with
          arrays := Function.update s.arrays s.nextArray Elements.identity
          nextArray := s.nextArray + 1
          nextId := s.nextId + 1
          sceneChildren := s.sceneChildren ++ [s.nextId]
          anchors := s.anchors ++
            [{ targetIndex := t, postMatrix := postMatrixOf w h,
               anchor := { id := s.nextId, visible := false, matrixAutoUpdate := false,
                           matrix := s.nextArray } }] },
       .ok { id := s.nextId, visible := false, matrixAutoUpdate := false,
             matrix := s.nextArray }) := by
  simp only [createAnchor, hd, ht]

/-- Claim C3: the post-transform `createAnchor` builds for a target of size `w` by `h` is
the composition of the translation `(w/2, w/2 + (h - w)/2, 0)`, the identity rotation and
the scale `(w, w, w)`; as a matrix it is `w` times the identity in its upper-left 3x3
block with that translation in the last column; its y-translation is `h/2`; and it
depends on `(w, h)` only: two anchors created one after the other for the same target
carry this same matrix.  (Positivity of `w` and `h` is not needed.) -/
theorem C3_post_transform (w h : ℚ) :
    postMatrixOf w h = compose { x := w / 2, y := w / 2 + (h - w) / 2, z := 0 }
        { x := 0, y := 0, z := 0, w := 1 } { x := w, y := w, z := w } ∧
    (postMatrixOf w h).toMatrix =
      !![w, 0, 0, w / 2;
         0, w, 0, w / 2 + (h - w) / 2;
         0, 0, w, 0;
         0, 0, 0, 1] ∧
    (postMatrixOf w h).e13 = h / 2 ∧
    (∀ (s : Session) (t : Nat) (dims : List (ℚ × ℚ)),
      s.dimensions = some dims → dims[t]? = some (w, h) →
      ∃ g1 g2 : Group,
        (createAnchor (createAnchor s t).1 t).1.anchors =
          s.anchors ++ [{ targetIndex := t, postMatrix := postMatrixOf w h, anchor := g1 },
                        { targetIndex := t, postMatrix := postMatrixOf w h, anchor := g2 }]) := by
  refine ⟨rfl, ?_, ?_, ?_⟩
  · rw [postMatrixOf_eq]
    ext i j
    fin_cases i <;> fin_cases j <;> simp [Elements.toMatrix]
    ring
  · rw [postMatrixOf_eq]
  · intro s t dims hd ht
    have h1 := createAnchor_known s t dims w h hd ht
    have hd1 : (createAnchor s t).1.dimensions = some dims := by rw [h1]; exact hd
    refine ⟨{ id := s.nextId, visible := false, matrixAutoUpdate := false,
              matrix := s.nextArray },
            { id := s.nextId + 1, visible := false, matrixAutoUpdate := false,
              matrix := s.nextArray + 1 }, ?_⟩
    rw [createAnchor_known (createAnchor s t).1 t dims w h hd1 ht, h1]
    simp

/-- Claim C7: `createAnchor` fails (with a `TypeError`) exactly when `this.dimensions` is
`null` or has no entry at `targetIndex`; when it fails the whole session, in particular
the anchor list and the scene, is unchanged; when the dimensions are known it returns
an invisible anchor, appends exactly the entry `{targetIndex, postMatrix, anchor}` at the
end of the anchor list and adds the anchor to the scene. -/
theorem C7_createAnchor_unknown_target (s : Session) (targetIndex : Nat) :
    ((createAnchor s targetIndex).2 = .error .typeError ↔
      (s.dimensions = none ∨
        ∃ dims, s.dimensions = some dims ∧ dims[targetIndex]? = none)) ∧
    ((createAnchor s targetIndex).2 = .error .typeError →
      (createAnchor s targetIndex).1 = s) ∧
    (∀ dims markerWidth markerHeight, s.dimensions = some dims →
      dims[targetIndex]? = some (markerWidth, markerHeight) →
      ∃ anchor : Group,
        (createAnchor s targetIndex).2 = .ok anchor ∧
        anchor.visible = false ∧
        (createAnchor s targetIndex).1.anchors =
          s.anchors ++ [{ targetIndex := targetIndex,
                          postMatrix := postMatrixOf markerWidth markerHeight,
                          anchor := anchor }] ∧
        (createAnchor s targetIndex).1.sceneChildren = s.sceneChildren ++ [anchor.id]) := by
  refine ⟨?_, ?_, ?_⟩
  · cases hd : s.dimensions with
    | none => simp [createAnchor_null s targetIndex hd]
    | some dims =>
      cases ht : dims[targetIndex]? with
      | none =>
        rw [createAnchor_missing s targetIndex dims hd ht]
        exact ⟨fun _ => Or.inr ⟨dims, rfl, ht⟩, fun _ => rfl⟩
      | some p =>
        obtain ⟨w, h⟩ := p
        rw [createAnchor_known s targetIndex dims w h hd ht]
        constructor
        · intro hc; cases hc
        · rintro (hc | ⟨d, hd1, hc⟩)
          · cases hc
          · cases hd1
            rw [ht] at hc
            cases hc
  · cases hd : s.dimensions with
    | none => intro _; rw [createAnchor_null s targetIndex hd]
    | some dims =>
      cases ht : dims[targetIndex]? with
      | none => intro _; rw [createAnchor_missing s targetIndex dims hd ht]
      | some p =>
        obtain ⟨w, h⟩ := p
        rw [createAnchor_known s targetIndex dims w h hd ht]
        intro hc; cases hc
  · intro dims w h hd ht
    rw [createAnchor_known s targetIndex dims w h hd ht]
    exact ⟨_, rfl, rfl, rfl, rfl⟩

/-! ## _updateAnchor -/

/-- The loop leaves anchors of other target indices, the arrays and the events alone. -/
theorem updateAnchorLoop_skip (t : Nat) (wm : Option Nat) (l : List AnchorEntry)
    (arrays : Nat → Elements) (events : List Event)
    (h : ∀ a ∈ l, a.targetIndex ≠ t) :
    updateAnchorLoop t wm l arrays events = (l, arrays, events) := by
  induction l with
  | nil => rfl
  | cons a rest ih =>
    have ha : ¬ t = a.targetIndex := fun e => h a (List.mem_cons_self _ _) e.symm
    have hrest : ∀ b ∈ rest, b.targetIndex ≠ t := fun b hb => h b (List.mem_cons_of_mem _ hb)
    simp [updateAnchorLoop, ha, ih hrest]

/-- The loop over a concatenation is the loop over the first part followed by the loop
over the second part, started from the arrays and events the first part left. -/
theorem updateAnchorLoop_append (t : Nat) (wm : Option Nat) (l1 l2 : List AnchorEntry)
    (arrays : Nat → Elements) (events : List Event) :
    updateAnchorLoop t wm (l1 ++ l2) arrays events =
      ((updateAnchorLoop t wm l1 arrays events).1 ++
        (updateAnchorLoop t wm l2 (updateAnchorLoop t wm l1 arrays events).2.1
          (updateAnchorLoop t wm l1 arrays events).2.2).1,
       (updateAnchorLoop t wm l2 (updateAnchorLoop t wm l1 arrays events).2.1
          (updateAnchorLoop t wm l1 arrays events).2.2).2) := by
  induction l1 generalizing arrays events with
  | nil => simp [updateAnchorLoop]
  | cons a rest ih =>
    simp only [List.cons_append, updateAnchorLoop]
    split
    · split
      · simp [ih]
      · simp [ih]
    · simp [ih]

/-- An update carrying the matrix stored at address `m`, on a registry in which exactly
one anchor has target index `t`: that anchor becomes visible and points at array `m`,
array `m` is overwritten with the product of its old contents and the post-transform,
no other array and no other anchor changes, and `targetFound` is dispatched if and only
if the anchor was invisible. -/
theorem updateAnchor_present_unique (s : Session) (t m : Nat) (pre post : List AnchorEntry)
    (e : AnchorEntry) (hs : s.anchors = pre ++ e :: post)
    (hother : ∀ a ∈ pre ++ post, a.targetIndex ≠ t) (he : e.targetIndex = t) :
    (updateAnchor s t (some m)).anchors =
        pre ++ { e with anchor := { e.anchor with matrix := m, visible := true } } :: post ∧
    (updateAnchor s t (some m)).arrays =
        Function.update s.arrays m (multiplyMatrices (s.arrays m) e.postMatrix) ∧
    (updateAnchor s t (some m)).events =
        s.events ++ (if e.anchor.visible then [] else [Event.targetFound t]) := by
  have hpre : ∀ a ∈ pre, a.targetIndex ≠ t := fun a ha => hother a (List.mem_append_left _ ha)
  have hpost : ∀ a ∈ post, a.targetIndex ≠ t := fun a ha => hother a (List.mem_append_right _ ha)
  simp only [updateAnchor, hs, updateAnchorLoop_append, updateAnchorLoop_skip t _ pre _ _ hpre,
    updateAnchorLoop, he, updateAnchorLoop_skip t _ post _ _ hpost]
  cases e.anchor.visible <;> simp

/-- An update with an absent matrix, on a registry in which exactly one anchor has target
index `t`: that anchor becomes invisible, no array changes, and `targetLost` is
dispatched if and only if the anchor was visible. -/
theorem updateAnchor_absent_unique (s : Session) (t : Nat) (pre post : List AnchorEntry)
    (e : AnchorEntry) (hs : s.anchors = pre ++ e :: post)
    (hother : ∀ a ∈ pre ++ post, a.targetIndex ≠ t) (he : e.targetIndex = t) :
    (updateAnchor s t none).anchors =
        pre ++ { e with anchor := { e.anchor with visible := false } } :: post ∧
    (updateAnchor s t none).arrays = s.arrays ∧
    (updateAnchor s t none).events =
        s.events ++ (if e.anchor.visible then [Event.targetLost t] else []) := by
  have hpre : ∀ a ∈ pre, a.targetIndex ≠ t := fun a ha => hother a (List.mem_append_left _ ha)
  have hpost : ∀ a ∈ post, a.targetIndex ≠ t := fun a ha => hother a (List.mem_append_right _ ha)
  simp only [updateAnchor, hs, updateAnchorLoop_append, updateAnchorLoop_skip t _ pre _ _ hpre,
    updateAnchorLoop, he, updateAnchorLoop_skip t _ post _ _ hpost]
  cases e.anchor.visible <;> simp

/-- The events of a run of updates for `t`, from any visibility of the one anchor for `t`. -/
theorem updateAnchorSeq_events (t : Nat) (pre post : List AnchorEntry)
    (hother : ∀ a ∈ pre ++ post, a.targetIndex ≠ t) (ws : List (Option Nat)) :
    ∀ (s : Session) (e : AnchorEntry), s.anchors = pre ++ e :: post → e.targetIndex = t →
      (updateAnchorSeq s t ws).events =
        s.events ++ specEdgeEvents t e.anchor.visible (ws.map Option.isSome) := by
  induction ws with
  | nil => intro s e _ _; simp [updateAnchorSeq, specEdgeEvents]
  | cons w rest ih =>
    intro s e hs he
    cases w with
    | none =>
      obtain ⟨ha, _, hev⟩ := updateAnchor_absent_unique s t pre post e hs hother he
      rw [updateAnchorSeq, ih _ _ ha he, hev]
      cases hv : e.anchor.visible <;> simp [specEdgeEvents]
    | some m =>
      obtain ⟨ha, _, hev⟩ := updateAnchor_present_unique s t m pre post e hs hother he
      rw [updateAnchorSeq, ih _ _ ha he, hev]
      cases hv : e.anchor.visible <;> simp [specEdgeEvents]

/-- A run over a concatenation is the run over the first part followed by the run over
the second part. -/
theorem updateAnchorSeq_append (t : Nat) (ws vs : List (Option Nat)) :
    ∀ s : Session,
      updateAnchorSeq s t (ws ++ vs) = updateAnchorSeq (updateAnchorSeq s t ws) t vs := by
  induction ws with
  | nil => intro s; rfl
  | cons w rest ih => intro s; exact ih (updateAnchor s t w)

/-- A run of updates for `t` keeps the shape of the registry: the anchors for other
targets stay as they are, the one for `t` keeps its target index and post-transform. -/
theorem updateAnchorSeq_shape (t : Nat) (pre post : List AnchorEntry)
    (hother : ∀ a ∈ pre ++ post, a.targetIndex ≠ t) (ws : List (Option Nat)) :
    ∀ (s : Session) (e : AnchorEntry), s.anchors = pre ++ e :: post → e.targetIndex = t →
      ∃ e1 : AnchorEntry, (updateAnchorSeq s t ws).anchors = pre ++ e1 :: post ∧
        e1.targetIndex = t ∧ e1.postMatrix = e.postMatrix := by
  induction ws with
  | nil => intro s e hs he; exact ⟨e, hs, he, rfl⟩
  | cons w rest ih =>
    intro s e hs he
    cases w with
    | none =>
      obtain ⟨ha, _, _⟩ := updateAnchor_absent_unique s t pre post e hs hother he
      obtain ⟨e1, h1, h2, h3⟩ := ih _ _ ha he
      exact ⟨e1, h1, h2, h3⟩
    | some m =>
      obtain ⟨ha, _, _⟩ := updateAnchor_present_unique s t m pre post e hs hother he
      obtain ⟨e1, h1, h2, h3⟩ := ih _ _ ha he
      exact ⟨e1, h1, h2, h3⟩

/-- Claim C1: found / lost events are edge-triggered.  In a registry whose only anchor
for target index `t` is `e` (other anchors, for other targets, may surround it) and
starts invisible, every finite sequence `ws` of pose updates for `t` dispatches exactly
the events the specification prescribes, in update order: one `targetFound` at each
update carrying a matrix while the anchor is invisible, one `targetLost` at each update
with an absent matrix while it is visible, nothing otherwise.  In particular
present, present, absent, absent, present dispatches found, lost, found; and a present
update that follows a present update dispatches nothing.  The last part states the
same update by update, on the visibility flag the anchor actually has in the session
reached so far. -/
theorem C1_edge_triggered_events (s : Session) (t : Nat) (pre post : List AnchorEntry)
    (e : AnchorEntry) (hs : s.anchors = pre ++ e :: post)
    (hother : ∀ a ∈ pre ++ post, a.targetIndex ≠ t) (he : e.targetIndex = t)
    (hinv : e.anchor.visible = false) :
    (∀ ws : List (Option Nat),
      (updateAnchorSeq s t ws).events =
        s.events ++ specEdgeEvents t false (ws.map Option.isSome)) ∧
    (∀ m1 m2 m3 : Nat,
      (updateAnchorSeq s t [some m1, some m2, none, none, some m3]).events =
        s.events ++ [Event.targetFound t, Event.targetLost t, Event.targetFound t]) ∧
    (∀ (ws : List (Option Nat)) (m1 m2 : Nat),
      (updateAnchorSeq s t (ws ++ [some m1, some m2])).events =
        (updateAnchorSeq s t (ws ++ [some m1])).events) ∧
    (∀ (ws : List (Option Nat)) (w : Option Nat), ∃ e1 : AnchorEntry,
      (updateAnchorSeq s t ws).anchors = pre ++ e1 :: post ∧
      (updateAnchorSeq s t (ws ++ [w])).events = (updateAnchorSeq s t ws).events ++
        (match w, e1.anchor.visible with
         | some _, false => [Event.targetFound t]
         | none, true => [Event.targetLost t]
         | _, _ => [])) := by
  have key := fun ws => updateAnchorSeq_events t pre post hother ws s e hs he
  rw [hinv] at key
  refine ⟨key, ?_, ?_, ?_⟩
  · intro m1 m2 m3
    rw [key]
    simp [specEdgeEvents]
  · intro ws m1 m2
    rw [key, key]
    simp only [List.map_append, List.map_cons, List.map_nil, Option.isSome_some]
    generalize ws.map Option.isSome = bs
    generalize false = v
    induction bs generalizing v with
    | nil => simp [specEdgeEvents]
    | cons b rest ih => simpa [specEdgeEvents] using ih b
  · intro ws w
    obtain ⟨e1, h1, ht1, _⟩ := updateAnchorSeq_shape t pre post hother ws s e hs he
    refine ⟨e1, h1, ?_⟩
    rw [updateAnchorSeq_append]
    simp only [updateAnchorSeq]
    cases w with
    | none =>
      rw [(updateAnchor_absent_unique _ t pre post e1 h1 hother ht1).2.2]
      cases e1.anchor.visible <;> rfl
    | some m =>
      rw [(updateAnchor_present_unique _ t m pre post e1 h1 hother ht1).2.2]
      cases e1.anchor.visible <;> rfl

/-- Witness of claim C1 on the session with a single anchor: the five updates of the
specification dispatch found, lost, found. -/
theorem C1_edge_triggered_events_witness :
    singleAnchorSession.anchors =
        [] ++ ({ targetIndex := 0, postMatrix := postMatrixOf 2 2,
                 anchor := { id := 0, visible := false, matrixAutoUpdate := false,
                             matrix := 0 } } : AnchorEntry) :: [] ∧
    (updateAnchorSeq singleAnchorSession 0 [some 1, some 1, none, none, some 1]).events =
      singleAnchorSession.events ++
        [Event.targetFound 0, Event.targetLost 0, Event.targetFound 0] :=
  have hs : singleAnchorSession.anchors =
      [] ++ ({ targetIndex := 0, postMatrix := postMatrixOf 2 2,
               anchor := { id := 0, visible := false, matrixAutoUpdate := false,
                           matrix := 0 } } : AnchorEntry) :: [] := by
    simp [singleAnchorSession, createAnchor, Session.new]
  ⟨hs, (C1_edge_triggered_events singleAnchorSession 0 [] [] _ hs (by simp) rfl rfl).2.1 1 1 1⟩

/-- Where at most one anchor has the target index of the update, the display transform
of that anchor after an update carrying `W` denotes the matrix product `W * P`. -/
theorem updateAnchor_displayTransform_unique (s : Session) (t m : Nat)
    (pre post : List AnchorEntry) (e : AnchorEntry) (hs : s.anchors = pre ++ e :: post)
    (hother : ∀ a ∈ pre ++ post, a.targetIndex ≠ t) (he : e.targetIndex = t) :
    ((updateAnchor s t (some m)).arrays m).toMatrix =
      (s.arrays m).toMatrix * e.postMatrix.toMatrix := by
  rw [(updateAnchor_present_unique s t m pre post e hs hother he).2.1, Function.update_same,
    multiplyMatrices_toMatrix]

/-- Claim C2, evaluated where it fails: two anchors share target index 0 (post-transform
`P`: scale 2, translation `(1, 1, 0)`) and the tracker passes the array at address 2,
holding `W`, the translation by `(5, 0, 0)`.  The claim asks for the display transform
`W * P` (scale 2, translation `(6, 1, 0)`) on both anchors.  After `_updateAnchor` both
anchors are visible and hold the very array that was passed in, and that array contains
`W * P * P` (scale 4, translation `(8, 3, 0)`): the first iteration overwrote the
tracker's array with `W * P`, and the second iteration multiplied it by `P` again. -/
theorem C2_shared_target_display_transform :
    sharedTargetSession.arrays 2 = worldFixture ∧
    (updateAnchor sharedTargetSession 0 (some 2)).anchors.map
        (fun e => (e.targetIndex, e.postMatrix, e.anchor.visible, e.anchor.matrix)) =
      [(0, postMatrixOf 2 2, true, 2), (0, postMatrixOf 2 2, true, 2)] ∧
    multiplyMatrices worldFixture (postMatrixOf 2 2) =
      { e0 := 2, e1 := 0, e2 := 0, e3 := 0, e4 := 0, e5 := 2, e6 := 0, e7 := 0,
        e8 := 0, e9 := 0, e10 := 2, e11 := 0, e12 := 6, e13 := 1, e14 := 0, e15 := 1 } ∧
    (updateAnchor sharedTargetSession 0 (some 2)).anchors.map
        (fun e => (updateAnchor sharedTargetSession 0 (some 2)).displayTransform e.anchor) =
      [{ e0 := 4, e1 := 0, e2 := 0, e3 := 0, e4 := 0, e5 := 4, e6 := 0, e7 := 0,
         e8 := 0, e9 := 0, e10 := 4, e11 := 0, e12 := 8, e13 := 3, e14 := 0, e15 := 1 },
       { e0 := 4, e1 := 0, e2 := 0, e3 := 0, e4 := 0, e5 := 4, e6 := 0, e7 := 0,
         e8 := 0, e9 := 0, e10 := 4, e11 := 0, e12 := 8, e13 := 3, e14 := 0, e15 := 1 }] ∧
    (∀ e ∈ (updateAnchor sharedTargetSession 0 (some 2)).anchors,
      (updateAnchor sharedTargetSession 0 (some 2)).displayTransform e.anchor ≠
        multiplyMatrices worldFixture e.postMatrix) := by
  have hanchors : (updateAnchor sharedTargetSession 0 (some 2)).anchors =
      [{ targetIndex := 0, postMatrix := postMatrixOf 2 2,
         anchor := { id := 0, visible := true, matrixAutoUpdate := false, matrix := 2 } },
       { targetIndex := 0, postMatrix := postMatrixOf 2 2,
         anchor := { id := 1, visible := true, matrixAutoUpdate := false, matrix := 2 } }] := by
    simp [sharedTargetSession, singleAnchorSession, createAnchor, Session.new, updateAnchor,
      updateAnchorLoop]
  have harray : (updateAnchor sharedTargetSession 0 (some 2)).arrays 2 =
      { e0 := 4, e1 := 0, e2 := 0, e3 := 0, e4 := 0, e5 := 4, e6 := 0, e7 := 0,
        e8 := 0, e9 := 0, e10 := 4, e11 := 0, e12 := 8, e13 := 3, e14 := 0, e15 := 1 } := by
    simp [sharedTargetSession, singleAnchorSession, createAnchor, Session.new, updateAnchor,
      updateAnchorLoop, Function.update, postMatrixOf_eq]
    norm_num [multiplyMatrices, Elements.identity, worldFixture]
  have hexpected : multiplyMatrices worldFixture (postMatrixOf 2 2) =
      { e0 := 2, e1 := 0, e2 := 0, e3 := 0, e4 := 0, e5 := 2, e6 := 0, e7 := 0,
        e8 := 0, e9 := 0, e10 := 2, e11 := 0, e12 := 6, e13 := 1, e14 := 0, e15 := 1 } := by
    rw [postMatrixOf_eq]
    norm_num [multiplyMatrices, Elements.identity, worldFixture]
  refine ⟨?_, ?_, hexpected, ?_, ?_⟩
  · simp [sharedTargetSession, singleAnchorSession, createAnchor, Session.new, Function.update]
  · rw [hanchors]; rfl
  · rw [hanchors]
    simp only [List.map_cons, List.map_nil, Session.displayTransform, harray]
  · intro e he
    rw [hanchors] at he
    have hp : e.postMatrix = postMatrixOf 2 2 ∧ e.anchor.matrix = 2 := by
      simp only [List.mem_cons, List.mem_singleton, List.not_mem_nil, or_false] at he
      rcases he with he | he <;> rw [he] <;> exact ⟨rfl, rfl⟩
    rw [Session.displayTransform, hp.1, hp.2, harray, hexpected]
    intro hc
    have h0 := congrArg Elements.e0 hc
    norm_num at h0

/-! ## _recomputeSizes -/

/-- Without rounding, `recomputeSizesRounded` is `recomputeSizes`. -/
theorem recomputeSizesRounded_id {α : Type} [LinearOrderedField α] (atan : α → α) (pi : α)
    (proj : Nat → α) (inputWidth inputHeight containerWidth containerHeight : α) :
    recomputeSizesRounded id atan pi proj inputWidth inputHeight containerWidth containerHeight =
      recomputeSizes atan pi proj inputWidth inputHeight containerWidth containerHeight :=
  rfl

/-- A rational strictly within one half of the integer `n` rounds to `n`. -/
theorem roundHalfEven_eq (q : ℚ) (n : ℤ) (h1 : (n : ℚ) - 1 / 2 < q) (h2 : q < n + 1 / 2) :
    roundHalfEven q = n := by
  unfold roundHalfEven
  by_cases hq : (n : ℚ) ≤ q
  · have hf : ⌊q⌋ = n := by
      rw [Int.floor_eq_iff]; constructor <;> linarith
    simp only [hf]
    rw [if_pos (by linarith)]
  · have hf : ⌊q⌋ = n - 1 := by
      rw [Int.floor_eq_iff]; push_cast; constructor <;> linarith
    simp only [hf]
    push_cast
    rw [if_neg (by linarith), if_pos (by linarith)]
    ring

/-- Zero is a double. -/
theorem roundDouble_zero : roundDouble 0 = 0 := by
  simp [roundDouble]

/-- How a value is rounded, given its binade `e` and the integer `n` its scaled
significand is nearest to. -/
theorem roundDouble_eq (x : ℚ) (e n : ℤ) (hx : x ≠ 0) (hlo : (2 : ℚ) ^ e ≤ |x|)
    (hhi : |x| < (2 : ℚ) ^ (e + 1))
    (h1 : (n : ℚ) - 1 / 2 < x / 2 ^ (e - 52)) (h2 : x / 2 ^ (e - 52) < n + 1 / 2) :
    roundDouble x = n * 2 ^ (e - 52) := by
  have hpos : 0 < |x| := abs_pos.2 hx
  have hlog : Int.log 2 |x| = e := by
    apply le_antisymm
    · have := (Int.lt_zpow_iff_log_lt (b := 2) (by norm_num) hpos (x := e + 1)).1
        (by exact_mod_cast hhi)
      omega
    · exact (Int.zpow_le_iff_le_log (b := 2) (by norm_num) hpos).1 (by exact_mod_cast hlo)
  simp only [roundDouble, if_neg hx, hlog, roundHalfEven_eq _ n h1 h2]

/-- The double nearest to 11/9 (both `352 / 288` and `1100 / 900`). -/
theorem roundDouble_eleven_ninths :
    roundDouble (11 / 9) = 1376099886140985 / 1125899906842624 := by
  rw [roundDouble_eq (11 / 9) 0 5504399544563940 (by norm_num) (by norm_num [abs_of_pos])
    (by norm_num [abs_of_pos]) (by norm_num) (by norm_num)]
  norm_num

/-- In doubles, 1100 divided by the double nearest to 11/9 is `900 - 2 ^ (-43)`, printed
899.9999999999999. -/
theorem roundDouble_fitted_height :
    roundDouble (1100 / (1376099886140985 / 1125899906842624)) =
      7916483719987199 / 8796093022208 := by
  rw [roundDouble_eq _ 9 7916483719987199 (by norm_num) (by norm_num [abs_of_pos])
    (by norm_num [abs_of_pos]) (by norm_num) (by norm_num)]
  norm_num

/-- The number `-2 ^ (-43)` is a double. -/
theorem roundDouble_height_defect :
    roundDouble (-1 / 8796093022208) = -1 / 8796093022208 := by
  rw [roundDouble_eq _ (-43) (-4503599627370496) (by norm_num) (by norm_num [abs_of_neg])
    (by norm_num [abs_of_neg]) (by norm_num) (by norm_num)]
  norm_num

/-- The number `2 ^ (-44)` is a double. -/
theorem roundDouble_top_offset :
    roundDouble (1 / 17592186044416) = 1 / 17592186044416 := by
  rw [roundDouble_eq _ (-44) 4503599627370496 (by norm_num) (by norm_num [abs_of_pos])
    (by norm_num [abs_of_pos]) (by norm_num) (by norm_num)]
  norm_num

/-- The layout `_recomputeSizes` computes in doubles for a 352 by 288 input in a 1100 by
900 container: width 1100, height `900 - 2 ^ (-43)`, left 0, top `2 ^ (-44)`. -/
theorem recomputeSizesRounded_cif_layout :
    (recomputeSizesRounded roundDouble nominalWorld.atan nominalWorld.pi fixtureProjection
        352 288 1100 900).inputStyle.width = 1100 ∧
    (recomputeSizesRounded roundDouble nominalWorld.atan nominalWorld.pi fixtureProjection
        352 288 1100 900).inputStyle.height = 7916483719987199 / 8796093022208 ∧
    (recomputeSizesRounded roundDouble nominalWorld.atan nominalWorld.pi fixtureProjection
        352 288 1100 900).inputStyle.left = 0 ∧
    (recomputeSizesRounded roundDouble nominalWorld.atan nominalWorld.pi fixtureProjection
        352 288 1100 900).inputStyle.top = 1 / 17592186044416 := by
  have e1 : (352 : ℚ) / 288 = 11 / 9 := by norm_num
  have e2 : (1100 : ℚ) / 900 = 11 / 9 := by norm_num
  have e3 : (7916483719987199 : ℚ) / 8796093022208 - 900 = -1 / 8796093022208 := by norm_num
  have e4 : -(-1 / 8796093022208 : ℚ) / 2 = 1 / 17592186044416 := by norm_num
  simp only [recomputeSizesRounded, e1, e2, roundDouble_eleven_ninths, gt_iff_lt, lt_irrefl,
    if_false, roundDouble_fitted_height, e3, roundDouble_height_defect, e4,
    roundDouble_top_offset, sub_self, roundDouble_zero, neg_zero, zero_div]
  exact ⟨trivial, trivial, trivial, trivial⟩

/-- The letterbox rule in exact arithmetic, over any linearly ordered field: for
positive dimensions the rectangle of `recomputeSizes` keeps the input aspect ratio, is
centred, fits the height and overflows the width when the input aspect exceeds the
container aspect, fits the width and overflows the height otherwise, and is applied to
canvas and video alike. -/
theorem recomputeSizes_letterbox_exact {α : Type} [LinearOrderedField α] (atan : α → α)
    (pi : α) (proj : Nat → α) (inputWidth inputHeight containerWidth containerHeight : α)
    (hiw : 0 < inputWidth) (hih : 0 < inputHeight)
    (hcw : 0 < containerWidth) (hch : 0 < containerHeight)
    (z : Sizes α)
    (hz : z = recomputeSizes atan pi proj inputWidth inputHeight containerWidth containerHeight) :
    z.inputStyle.width / z.inputStyle.height = inputWidth / inputHeight ∧
    z.inputStyle.left = -(z.inputStyle.width - containerWidth) / 2 ∧
    z.inputStyle.top = -(z.inputStyle.height - containerHeight) / 2 ∧
    (inputWidth / inputHeight > containerWidth / containerHeight →
      z.inputStyle.height = containerHeight ∧ z.inputStyle.width > containerWidth ∧
      z.inputStyle.top = 0 ∧ z.inputStyle.left < 0) ∧
    (¬ inputWidth / inputHeight > containerWidth / containerHeight →
      z.inputStyle.width = containerWidth ∧ z.inputStyle.height ≥ containerHeight ∧
      z.inputStyle.left = 0 ∧ z.inputStyle.top ≤ 0) ∧
    z.canvasStyle = z.inputStyle := by
  subst hz
  have hr : 0 < inputWidth / inputHeight := div_pos hiw hih
  have hov : inputWidth / inputHeight > containerWidth / containerHeight →
      containerHeight * (inputWidth / inputHeight) > containerWidth := by
    intro h
    have := (div_lt_iff₀ hch).1 h
    linarith [mul_comm containerHeight (inputWidth / inputHeight)]
  have hun : ¬ inputWidth / inputHeight > containerWidth / containerHeight →
      containerWidth / (inputWidth / inputHeight) ≥ containerHeight := by
    intro h
    have h1 : inputWidth / inputHeight ≤ containerWidth / containerHeight := not_lt.1 h
    have h2 := (le_div_iff₀ hch).1 h1
    rw [ge_iff_le, le_div_iff₀ hr]
    linarith [mul_comm containerHeight (inputWidth / inputHeight)]
  refine ⟨?_, rfl, rfl, ?_, ?_, rfl⟩
  · by_cases h : inputWidth / inputHeight > containerWidth / containerHeight
    · simp only [recomputeSizes, h, if_true]
      field_simp
      ring
    · simp only [recomputeSizes, h, if_false]
      field_simp
      ring
  · intro h
    have := hov h
    simp only [recomputeSizes, h, if_true]
    refine ⟨trivial, this, by simp, ?_⟩
    linarith
  · intro h
    have := hun h
    simp only [recomputeSizes, h, if_false]
    refine ⟨trivial, this, by simp, ?_⟩
    linarith

/-- Claim C4 as stated fails in double precision: for a 352 by 288 input in a 1100 by 900
container (equal aspects, so the input aspect is not greater) `_recomputeSizes`
computes the display height `900 - 2 ^ (-43)` (printed 899.9999999999999), which is
below the container height, and the top offset `2 ^ (-44)` (about 5.7e-14), which is
positive: it is not the case that the display height is at least the container height
and the top offset at most 0. -/
theorem C4_letterbox_fails_in_doubles :
    ¬ ((352 : ℚ) / 288 > 1100 / 900) ∧
    ¬ (roundDouble (352 / 288) > roundDouble (1100 / 900)) ∧
    (recomputeSizesRounded roundDouble nominalWorld.atan nominalWorld.pi fixtureProjection
        352 288 1100 900).inputStyle.height = 900 - 1 / 2 ^ 43 ∧
    (recomputeSizesRounded roundDouble nominalWorld.atan nominalWorld.pi fixtureProjection
        352 288 1100 900).inputStyle.top = 1 / 2 ^ 44 ∧
    ¬ ((recomputeSizesRounded roundDouble nominalWorld.atan nominalWorld.pi fixtureProjection
          352 288 1100 900).inputStyle.width = 1100 ∧
       (recomputeSizesRounded roundDouble nominalWorld.atan nominalWorld.pi fixtureProjection
          352 288 1100 900).inputStyle.height ≥ 900 ∧
       (recomputeSizesRounded roundDouble nominalWorld.atan nominalWorld.pi fixtureProjection
          352 288 1100 900).inputStyle.left = 0 ∧
       (recomputeSizesRounded roundDouble nominalWorld.atan nominalWorld.pi fixtureProjection
          352 288 1100 900).inputStyle.top ≤ 0) := by
  obtain ⟨_, hh, _, ht⟩ := recomputeSizesRounded_cif_layout
  refine ⟨by norm_num, ?_, ?_, ?_, ?_⟩
  · rw [show (352 : ℚ) / 288 = 11 / 9 by norm_num, show (1100 : ℚ) / 900 = 11 / 9 by norm_num]
    exact lt_irrefl _
  · rw [hh]; norm_num
  · rw [ht]; norm_num
  · rw [hh, ht]
    norm_num

/-- Claim C4, amended: the letterbox rule holds up to floating-point rounding.  For
positive input and container dimensions:

* in exact arithmetic (`z`, the operations of `_recomputeSizes` without rounding) the
  display rectangle keeps the input aspect ratio and is centred; when the input aspect
  exceeds the container aspect its height is the container height and its width
  exceeds the container width (`top = 0`, `left < 0`), otherwise its width is the
  container width and its height is at least the container height (`left = 0`,
  `top ≤ 0`);
* in double precision (`zd`) `left` and `top` are the rounded values of
  `-(width - containerWidth)/2` and `-(height - containerHeight)/2`, and the fitted
  dimension is exact: when the computed input aspect exceeds the computed container
  aspect the height is the container height and `top = 0`, otherwise the width is the
  container width and `left = 0`;
* in both readings the canvas receives the same style as the video. -/
theorem C4_letterbox_layout (atan : ℚ → ℚ) (pi : ℚ) (proj : Nat → ℚ)
    (inputWidth inputHeight containerWidth containerHeight : ℚ)
    (hiw : 0 < inputWidth) (hih : 0 < inputHeight)
    (hcw : 0 < containerWidth) (hch : 0 < containerHeight)
    (z : Sizes ℚ)
    (hz : z = recomputeSizes atan pi proj inputWidth inputHeight containerWidth containerHeight)
    (zd : Sizes ℚ)
    (hzd : zd = recomputeSizesRounded roundDouble atan pi proj inputWidth inputHeight
      containerWidth containerHeight) :
    (z.inputStyle.width / z.inputStyle.height = inputWidth / inputHeight ∧
     z.inputStyle.left = -(z.inputStyle.width - containerWidth) / 2 ∧
     z.inputStyle.top = -(z.inputStyle.height - containerHeight) / 2 ∧
     (inputWidth / inputHeight > containerWidth / containerHeight →
       z.inputStyle.height = containerHeight ∧ z.inputStyle.width > containerWidth ∧
       z.inputStyle.top = 0 ∧ z.inputStyle.left < 0) ∧
     (¬ inputWidth / inputHeight > containerWidth / containerHeight →
       z.inputStyle.width = containerWidth ∧ z.inputStyle.height ≥ containerHeight ∧
       z.inputStyle.left = 0 ∧ z.inputStyle.top ≤ 0) ∧
     z.canvasStyle = z.inputStyle) ∧
    (zd.inputStyle.left = roundDouble (-(roundDouble (zd.inputStyle.width - containerWidth)) / 2) ∧
     zd.inputStyle.top = roundDouble (-(roundDouble (zd.inputStyle.height - containerHeight)) / 2) ∧
     (roundDouble (inputWidth / inputHeight) > roundDouble (containerWidth / containerHeight) →
       zd.inputStyle.height = containerHeight ∧ zd.inputStyle.top = 0) ∧
     (¬ roundDouble (inputWidth / inputHeight) > roundDouble (containerWidth / containerHeight) →
       zd.inputStyle.width = containerWidth ∧ zd.inputStyle.left = 0) ∧
     zd.canvasStyle = zd.inputStyle) := by
  refine ⟨recomputeSizes_letterbox_exact atan pi proj inputWidth inputHeight containerWidth
    containerHeight hiw hih hcw hch z hz, ?_⟩
  subst hzd
  refine ⟨rfl, rfl, ?_, ?_, rfl⟩
  · intro h
    simp only [recomputeSizesRounded, h, if_true, sub_self, roundDouble_zero, neg_zero,
      zero_div]
    exact ⟨trivial, trivial⟩
  · intro h
    simp only [recomputeSizesRounded, h, if_false, sub_self, roundDouble_zero, neg_zero,
      zero_div]
    exact ⟨trivial, trivial⟩

/-- Witness of the amended claim C4: a 1920 by 1080 input in a 800 by 800 container keeps
the aspect ratio 1920/1080 in exact arithmetic, and in doubles its canvas and video
receive the same style. -/
theorem C4_letterbox_layout_witness :
    (0 : ℚ) < 1920 ∧ (0 : ℚ) < 1080 ∧ (0 : ℚ) < 800 ∧
    (recomputeSizes nominalWorld.atan nominalWorld.pi fixtureProjection
        1920 1080 800 800).inputStyle.width /
      (recomputeSizes nominalWorld.atan nominalWorld.pi fixtureProjection
        1920 1080 800 800).inputStyle.height = 1920 / 1080 ∧
    (recomputeSizesRounded roundDouble nominalWorld.atan nominalWorld.pi fixtureProjection
        1920 1080 800 800).canvasStyle =
      (recomputeSizesRounded roundDouble nominalWorld.atan nominalWorld.pi fixtureProjection
        1920 1080 800 800).inputStyle :=
  have h := C4_letterbox_layout nominalWorld.atan nominalWorld.pi fixtureProjection
      1920 1080 800 800 (by norm_num) (by norm_num) (by norm_num) (by norm_num) _ rfl _ rfl
  ⟨by norm_num, by norm_num, by norm_num, h.1.1, h.2.2.2.2.2⟩

/-- Claim C5 as stated fails: for an input of 640 by 480 (4:3) in a container of 1600 by
900 (16:9) it is not the case that the display height is the container height, the
display width exceeds the container width, the left offset is
`-(displayWidth - containerWidth)/2` and the top offset is 0. -/
theorem C5_fixture_as_stated_fails :
    ¬ ((recomputeSizes nominalWorld.atan nominalWorld.pi fixtureProjection
          640 480 1600 900).inputStyle.height = 900 ∧
       (recomputeSizes nominalWorld.atan nominalWorld.pi fixtureProjection
          640 480 1600 900).inputStyle.width > 1600 ∧
       (recomputeSizes nominalWorld.atan nominalWorld.pi fixtureProjection
          640 480 1600 900).inputStyle.left =
         -((recomputeSizes nominalWorld.atan nominalWorld.pi fixtureProjection
          640 480 1600 900).inputStyle.width - 1600) / 2 ∧
       (recomputeSizes nominalWorld.atan nominalWorld.pi fixtureProjection
          640 480 1600 900).inputStyle.top = 0) := by
  norm_num [recomputeSizes]

/-- Claim C5, amended: for an input of aspect 4:3 and a container of aspect 16:9 the
input aspect is below the container aspect, so `_recomputeSizes` fits the width: the
display width is the container width, the display height is three quarters of it and
exceeds the container height, the left offset is 0 and the top offset is
`-(displayHeight - containerHeight)/2`, which is negative. -/
theorem C5_fixture_fits_width {α : Type} [LinearOrderedField α] (atan : α → α) (pi : α)
    (proj : Nat → α) (inputWidth inputHeight containerWidth containerHeight : α)
    (hch : 0 < containerHeight)
    (hin : inputWidth / inputHeight = 4 / 3) (hcont : containerWidth / containerHeight = 16 / 9)
    (z : Sizes α)
    (hz : z = recomputeSizes atan pi proj inputWidth inputHeight containerWidth containerHeight) :
    z.inputStyle.width = containerWidth ∧
    z.inputStyle.height = containerWidth * 3 / 4 ∧
    z.inputStyle.height > containerHeight ∧
    z.inputStyle.left = 0 ∧
    z.inputStyle.top = -(z.inputStyle.height - containerHeight) / 2 ∧
    z.inputStyle.top < 0 := by
  subst hz
  have hlt : ¬ (4 / 3 : α) > containerWidth / containerHeight := by
    rw [hcont]; norm_num
  have hcw1 : containerWidth = 16 / 9 * containerHeight := by
    field_simp at hcont ⊢; linarith
  have hH : containerWidth / (4 / 3) > containerHeight := by
    have e : containerWidth / (4 / 3) = 4 / 3 * containerHeight := by rw [hcw1]; ring
    rw [e]; linarith
  simp only [recomputeSizes, hin, hlt, if_false]
  refine ⟨trivial, by ring, hH, by simp, trivial, ?_⟩
  linarith

/-- Witness of the amended claim C5: 640 by 480 in 1600 by 900 is displayed 1600 wide
and 1200 high, at left 0 and top -150. -/
theorem C5_fixture_fits_width_witness :
    (0 : ℚ) < 900 ∧ (640 : ℚ) / 480 = 4 / 3 ∧ (1600 : ℚ) / 900 = 16 / 9 ∧
    (recomputeSizes nominalWorld.atan nominalWorld.pi fixtureProjection
        640 480 1600 900).inputStyle.width = 1600 ∧
    (recomputeSizes nominalWorld.atan nominalWorld.pi fixtureProjection
        640 480 1600 900).inputStyle.height = 1600 * 3 / 4 :=
  have h := C5_fixture_fits_width nominalWorld.atan nominalWorld.pi fixtureProjection
      640 480 1600 900 (by norm_num) (by norm_num) (by norm_num) _ rfl
  ⟨by norm_num, by norm_num, by norm_num, h.1, h.2.1⟩

/-- Claim C6 as stated fails: with `m[5] = 1.0`, `m[10] = -1.0022`, `m[14] = -0.2002`
(and `Math.atan`, `Math.PI` read as the real arctangent and the real number pi) it is
not the case that fov, near and far are within 1% of 90, 0.1 and 100: far is 91. -/
theorem C6_fixture_as_stated_fails :
    ¬ (|(recomputeSizes Real.arctan Real.pi fixtureProjection 640 480 1600 900).fov - 90|
          < 90 / 100 ∧
       |(recomputeSizes Real.arctan Real.pi fixtureProjection 640 480 1600 900).near - 1 / 10|
          < (1 / 10) / 100 ∧
       |(recomputeSizes Real.arctan Real.pi fixtureProjection 640 480 1600 900).far - 100|
          < 100 / 100 ∧
       (recomputeSizes Real.arctan Real.pi fixtureProjection 640 480 1600 900).aspect
          = 640 / 480) := by
  have hfar :
      (recomputeSizes Real.arctan Real.pi fixtureProjection 640 480 1600 900).far = 91 := by
    norm_num [recomputeSizes, fixtureProjection]
  rw [hfar]
  norm_num

/-- Claim C6, amended: for a projection matrix with `m[5] = 1.0`, `m[10] = -1.0022` and
`m[14] = -0.2002`, in exact arithmetic, `_recomputeSizes` assigns fov
`2 * atan(1/m[5]) * 180 / pi = 90`, near `m[14]/(m[10] - 1) = 1001/10011` (within 1% of
0.1), far `m[14]/(m[10] + 1) = 91`, and aspect `inputWidth / inputHeight`. -/
theorem C6_fixture_decomposition (proj : Nat → ℝ)
    (inputWidth inputHeight containerWidth containerHeight : ℝ)
    (h5 : proj 5 = 1) (h10 : proj 10 = -1.0022) (h14 : proj 14 = -0.2002)
    (z : Sizes ℝ)
    (hz : z = recomputeSizes Real.arctan Real.pi proj inputWidth inputHeight
      containerWidth containerHeight) :
    z.fov = 90 ∧
    z.near = 1001 / 10011 ∧ |z.near - 1 / 10| < (1 / 10) / 100 ∧
    z.far = 91 ∧
    z.aspect = inputWidth / inputHeight := by
  subst hz
  have hfov : 2 * Real.arctan (1 / 1) * 180 / Real.pi = 90 := by
    rw [div_one, Real.arctan_one]
    field_simp
    ring
  have hnear : (recomputeSizes Real.arctan Real.pi proj inputWidth inputHeight
      containerWidth containerHeight).near = 1001 / 10011 := by
    simp only [recomputeSizes, h10, h14]; norm_num
  refine ⟨?_, hnear, ?_, ?_, rfl⟩
  · simp only [recomputeSizes, h5]; exact hfov
  · rw [hnear]; norm_num [abs_lt]
  · simp only [recomputeSizes, h10, h14]; norm_num

/-- Witness of the amended claim C6 on the fixture projection. -/
theorem C6_fixture_decomposition_witness :
    (fixtureProjection 5 : ℝ) = 1 ∧
    (recomputeSizes Real.arctan Real.pi fixtureProjection 640 480 1600 900).fov = 90 ∧
    (recomputeSizes Real.arctan Real.pi fixtureProjection 640 480 1600 900).far = 91 :=
  have h := C6_fixture_decomposition fixtureProjection 640 480 1600 900
    (by simp [fixtureProjection]) (by norm_num [fixtureProjection])
    (by norm_num [fixtureProjection]) _ rfl
  ⟨by simp [fixtureProjection], h.1, h.2.2.2.1⟩

/-! ## start -/

/-- Claim C8: when capture acquisition fails (no `mediaDevices.getUserMedia`, or the
request is rejected), `start()` dispatches exactly one event, `arError` with
`VIDEO_FAIL`, hence no `arReady`; the only collaborator call it makes is the
`getUserMedia` request itself (when the capability exists), so the tracker is neither
constructed nor set up and nothing is appended to the container; `this.controller`,
`this.dimensions` and `this.input` stay as they were. -/
theorem C8_capture_failure (s : Session) (w : World)
    (h : w.hasGetUserMedia = false ∨ w.getUserMedia = .rejected) :
    (start s w).events = s.events ++ [Event.arError ErrorCode.VIDEO_FAIL] ∧
    (start s w).calls = s.calls ++ (if w.hasGetUserMedia then [Call.getUserMedia] else []) ∧
    (start s w).containerChildren = s.containerChildren ∧
    (start s w).controller = s.controller ∧
    (start s w).dimensions = s.dimensions ∧
    (start s w).input = s.input := by
  cases hcap : w.hasGetUserMedia with
  | false =>
    simp [start, startVideo, hcap, newPromiseAsync, Session.dispatchEvent]
  | true =>
    rcases h with h | h
    · rw [hcap] at h; cases h
    · simp [start, startVideo, hcap, h, newPromiseAsync, Session.dispatchEvent, Session.call]

/-- Witness of claim C8: a new session on a platform without `getUserMedia`. -/
theorem C8_capture_failure_witness :
    ({ nominalWorld with hasGetUserMedia := false } : World).hasGetUserMedia = false ∧
    (start (Session.new 1600 900) { nominalWorld with hasGetUserMedia := false }).events =
      (Session.new 1600 900).events ++ [Event.arError ErrorCode.VIDEO_FAIL] :=
  ⟨rfl, (C8_capture_failure (Session.new 1600 900)
    { nominalWorld with hasGetUserMedia := false } (Or.inl rfl)).1⟩

/-- After a successful capture, a tracker constructor that raises or a target
registration that rejects leaves `start()` waiting for ever: no event is dispatched and
nothing is appended to the container. -/
theorem start_registration_failure (s : Session) (w : World) (stream : List Bool)
    (size : ℚ × ℚ) (hcap : w.hasGetUserMedia = true) (hgum : w.getUserMedia = .resolved stream)
    (hmeta : w.loadedmetadata = some size)
    (h : w.controllerThrows = true ∨ w.addImageTargets = .rejected) :
    (start s w).events = s.events ∧ (start s w).containerChildren = s.containerChildren := by
  obtain ⟨vw, vh⟩ := size
  cases hthrow : w.controllerThrows with
  | true =>
    simp [start, startVideo, startAR, hcap, hgum, hmeta, hthrow, newPromiseAsync, Session.call]
  | false =>
    rcases h with h | h
    · rw [hthrow] at h; cases h
    · simp [start, startVideo, startAR, hcap, hgum, hmeta, hthrow, h, newPromiseAsync,
        Session.call]

/-- After a successful capture and tracker registration, a warm-up pass that rejects
makes `start()` dispatch exactly `arError` with `AR_FAIL`, append nothing to the
container and never call `processVideo`. -/
theorem start_warmup_failure (s : Session) (w : World) (stream : List Bool) (size : ℚ × ℚ)
    (dims : List (ℚ × ℚ))
    (hcap : w.hasGetUserMedia = true) (hgum : w.getUserMedia = .resolved stream)
    (hmeta : w.loadedmetadata = some size) (hctor : w.controllerThrows = false)
    (hreg : w.addImageTargets = .resolved dims) (hrun : w.dummyRun = .rejected) :
    (start s w).events = s.events ++ [Event.arError ErrorCode.AR_FAIL] ∧
    (start s w).containerChildren = s.containerChildren ∧
    Call.processVideo ∉ (start s w).calls.drop s.calls.length := by
  obtain ⟨vw, vh⟩ := size
  simp [start, startVideo, startAR, hcap, hgum, hmeta, hctor, hreg, hrun, newPromiseAsync,
    Session.call, Session.dispatchEvent]

/-- Claim C9, evaluated where it fails: on a new session with a working camera, when
`controller.addImageTargets` rejects, `start()` dispatches no event at all (the claim
asks for one `arError` with `AR_FAIL`); the calls made end with `addImageTargets`.  The
same holds when `new Controller(...)` raises.  Only a rejected warm-up pass
(`dummyRun`) is reported as `AR_FAIL`. -/
theorem C9_registration_failure_unreported :
    (start (Session.new 1600 900) { nominalWorld with addImageTargets := .rejected }).events
      = [] ∧
    (start (Session.new 1600 900) { nominalWorld with addImageTargets := .rejected }).calls =
      [Call.getUserMedia, Call.newController (some 640) (some 480) 1, Call.addImageTargets] ∧
    (start (Session.new 1600 900) { nominalWorld with controllerThrows := true }).events
      = [] ∧
    (start (Session.new 1600 900) { nominalWorld with dummyRun := .rejected }).events =
      [Event.arError ErrorCode.AR_FAIL] := by
  simp [start, startVideo, startAR, nominalWorld, newPromiseAsync, Session.call, Session.new,
    Session.dispatchEvent]

/-- A successful start-up dispatches `arReady` and appends the video and the canvas. -/
theorem start_success :
    (start (Session.new 1600 900) nominalWorld).events = [Event.arReady] ∧
    (start (Session.new 1600 900) nominalWorld).containerChildren =
      [Surface.video 0, Surface.canvas] := by
  simp [start, startVideo, startAR, nominalWorld, newPromiseAsync, Session.call, Session.new,
    Session.dispatchEvent]

/-! ## stop -/

/-- The synchronous part of `start()` assigns neither `this.input` nor `this.controller`
and appends nothing to the container. -/
theorem startSync_fields (s : Session) (w : World) :
    (startSync s w).input = s.input ∧ (startSync s w).controller = s.controller ∧
    (startSync s w).containerChildren = s.containerChildren := by
  unfold startSync startVideo
  cases w.hasGetUserMedia
  · simp
  · cases w.getUserMedia with
    | resolved stream => cases w.loadedmetadata <;> simp [Session.call]
    | rejected => simp [Session.call]
    | pending => simp [Session.call]

/-- With `this.input` unset, `stop()` raises at `video.pause` and writes nothing. -/
theorem stop_unset_input (s : Session) (h : s.input = none) :
    stop s = (s, .error .typeError) := by
  simp [stop, pause, h]

/-- With `this.controller` unset, `stop()` raises at `this.controller.stopProcessVideo`. -/
theorem stop_unset_controller (s : Session) (video : Video) (hi : s.input = some video)
    (hc : s.controller = none) :
    (stop s).2 = .error .typeError ∧ (stop s).1.containerChildren = s.containerChildren := by
  simp [stop, pause, hi, hc, Session.call]

/-- With `video.srcObject` unset, `stop()` raises at `video.srcObject.getTracks`. -/
theorem stop_unset_stream (s : Session) (video : Video) (controller : Controller)
    (hi : s.input = some video) (hc : s.controller = some controller)
    (hsrc : video.srcObject = none) :
    (stop s).2 = .error .typeError ∧ (stop s).1.containerChildren = s.containerChildren := by
  simp [stop, pause, hi, hc, hsrc, Session.call]

/-- With capture handle, stream and tracker handle set, `stop()` succeeds; its result. -/
theorem stop_ready (s : Session) (video : Video) (tracks : List Bool) (controller : Controller)
    (hi : s.input = some video) (hsrc : video.srcObject = some tracks)
    (hc : s.controller = some controller) :
    stop s =
      ({ s with
          input := some { video with paused := true,
                                     srcObject := some (tracks.map fun _ => false) }
          controller := some { controller with processing := false }
          containerChildren := s.containerChildren.filter (fun c => c != Surface.video video.id)
          calls := s.calls ++ [Call.videoPause, Call.stopProcessVideo] ++
            tracks.map (fun _ => Call.trackStop) ++ [Call.videoRemove] },
       .ok ()) := by
  simp [stop, pause, hi, hc, hsrc, Session.call]

/-- Claim C10 as stated fails: on a new session, `stop()` called right after `start()`
has returned (start-up not yet resolved, `this.input` unset) does not complete
normally: it raises a `TypeError`. -/
theorem C10_stop_before_startup_raises :
    ¬ ((stop (startSync (Session.new 1600 900) nominalWorld)).2 = .ok ()) := by
  have h : (startSync (Session.new 1600 900) nominalWorld).input = none :=
    (startSync_fields _ _).1
  rw [stop_unset_input _ h]
  intro hc; cases hc

/-- Claim C10, amended: `stop()` completes without raising exactly when the capture
handle `this.input` (with its stream) and the tracker handle `this.controller` are both
set; then it pauses the video, stops frame processing, stops every track and removes
the video from the container.  Whenever it raises, the children of the container are
left as they were; in particular `stop()` called right after `start()` on a session
whose `this.input` is unset raises a `TypeError` and attaches nothing. -/
theorem C10_stop_needs_handles (s : Session) :
    ((stop s).2 = .ok () ↔
      ∃ video tracks controller,
        s.input = some video ∧ video.srcObject = some tracks ∧ s.controller = some controller) ∧
    (∀ video tracks controller,
        s.input = some video → video.srcObject = some tracks → s.controller = some controller →
        (stop s).2 = .ok () ∧
        Surface.video video.id ∉ (stop s).1.containerChildren ∧
        (stop s).1.containerChildren =
          s.containerChildren.filter (fun c => c != Surface.video video.id) ∧
        (stop s).1.input =
          some { video with paused := true, srcObject := some (tracks.map fun _ => false) } ∧
        (stop s).1.controller = some { controller with processing := false }) ∧
    ((stop s).2 = .error .typeError → (stop s).1.containerChildren = s.containerChildren) ∧
    (∀ w : World, s.input = none →
        (stop (startSync s w)).2 = .error .typeError ∧
        (stop (startSync s w)).1.containerChildren = s.containerChildren) := by
  have hok : ∀ video tracks controller,
      s.input = some video → video.srcObject = some tracks → s.controller = some controller →
      (stop s).2 = .ok () := by
    intro video tracks controller hi hsrc hc
    rw [stop_ready s video tracks controller hi hsrc hc]
  have herr : (∀ video tracks controller,
      ¬ (s.input = some video ∧ video.srcObject = some tracks ∧ s.controller = some controller)) →
      (stop s).2 = .error .typeError ∧ (stop s).1.containerChildren = s.containerChildren := by
    intro hno
    cases hi : s.input with
    | none => rw [stop_unset_input s hi]; exact ⟨rfl, rfl⟩
    | some video =>
      cases hc : s.controller with
      | none => exact stop_unset_controller s video hi hc
      | some controller =>
        cases hsrc : video.srcObject with
        | none => exact stop_unset_stream s video controller hi hc hsrc
        | some tracks => exact absurd ⟨hi, hsrc, hc⟩ (hno video tracks controller)
  refine ⟨⟨?_, ?_⟩, ?_, ?_, ?_⟩
  · intro h
    by_contra hno
    have := (herr (fun v t c hvtc => hno ⟨v, t, c, hvtc⟩)).1
    rw [this] at h
    cases h
  · rintro ⟨video, tracks, controller, hi, hsrc, hc⟩
    exact hok video tracks controller hi hsrc hc
  · intro video tracks controller hi hsrc hc
    rw [stop_ready s video tracks controller hi hsrc hc]
    refine ⟨rfl, ?_, rfl, rfl, rfl⟩
    simp
  · intro h
    by_cases hex : ∃ video tracks controller,
        s.input = some video ∧ video.srcObject = some tracks ∧ s.controller = some controller
    · obtain ⟨v, t, c, hi, hsrc, hc⟩ := hex
      rw [hok v t c hi hsrc hc] at h
      cases h
    · exact (herr (fun v t c hvtc => hex ⟨v, t, c, hvtc⟩)).2
  · intro w hi
    have h1 : (startSync s w).input = none := by rw [(startSync_fields s w).1]; exact hi
    rw [stop_unset_input _ h1]
    exact ⟨rfl, (startSync_fields s w).2.2⟩

/-- Witness of the amended claim C10: after a successful start-up `stop()` completes and
the video is no longer a child of the container. -/
theorem C10_stop_needs_handles_witness :
    (stop (start (Session.new 1600 900) nominalWorld)).2 = .ok () ∧
    Surface.video 0 ∉ (stop (start (Session.new 1600 900) nominalWorld)).1.containerChildren :=
  have h := (C10_stop_needs_handles (start (Session.new 1600 900) nominalWorld)).2.1
    { id := 0, videoWidth := 640, videoHeight := 480, srcObject := some [true] } [true]
    { inputWidth := some 640, inputHeight := some 480, maxTrack := 1,
      getProjectionMatrix := nominalWorld.getProjectionMatrix, processing := true }
    (by simp [start, startVideo, startAR, nominalWorld, newPromiseAsync, Session.call,
          Session.new, Session.dispatchEvent])
    rfl
    (by simp [start, startVideo, startAR, nominalWorld, newPromiseAsync, Session.call,
          Session.new, Session.dispatchEvent])
  ⟨h.1, h.2.1⟩

end MindAR
